import Mathlib

/-!
Verification of the PNS local-cache subsystem: a shallow embedding of
`src/dao/sqlite_client.py` (SQLite cache store: schema evolution and
upsert-by-key) and `src/mapping.py` (semantic-to-physical variable mapping),
together with proofs of the specified properties.

Modelling conventions:
- SQLite values are modelled by `SQLVal` (NULL / INTEGER / REAL / TEXT).
- A pandas `DataFrame` is a list of column names plus positionally aligned
  rows (`DataFrame`).
- The on-disk table is `Table`: an ordered schema of column definitions plus
  a list of stored rows.  A stored row keeps its two timestamp fields
  (`created_at`, `updated_at`, written only by the store itself, modelled as
  abstract clock readings `Nat`) and an association list for all data
  columns; a column absent from the association list reads as SQL NULL,
  exactly as a freshly added `ALTER TABLE` column does.
- `CURRENT_TIMESTAMP` is an explicit `now : Nat` parameter.
- A storage fault inside the write transaction of `upsert_rows`
  (`executemany` / `commit`) is modelled by a `fault : Bool` oracle; the
  `get_connection` context manager of the source rolls the active
  transaction back and re-raises, which the model renders as the
  `UpsertOutcome.storageFailure` outcome with the rows of the table left as
  they were before the write transaction began.  Note that in the source the
  schema changes performed by `ensure_columns_exist` each run in their own
  connection (own transaction) and are committed before the write
  transaction starts, so they survive such a fault.
-/

/-- A dynamically typed SQLite value. -/
inductive SQLVal where
  | null
  | intV (i : Int)
  | realV (q : Rat)
  | textV (s : String)
deriving DecidableEq, Repr

/-- A tabular batch, as handed to `upsert_rows`: named columns with rows
aligned by position (the shape of a pandas DataFrame). -/
structure DataFrame where
  cols : List String
  rows : List (List SQLVal)
deriving DecidableEq, Repr

/-- `pandas.DataFrame.empty`: true iff either axis has length zero. -/
def dfEmpty (df : DataFrame) : Bool :=
  df.cols.isEmpty || df.rows.isEmpty

/-- One column of the table schema.  `notNull`, `isPk` and `dfltNow`
record the `NOT NULL`, `PRIMARY KEY` membership and
`DEFAULT CURRENT_TIMESTAMP` clauses of the DDL. -/
structure ColumnDef where
  name : String
  sqlType : String
  notNull : Bool
  isPk : Bool
  dfltNow : Bool
deriving DecidableEq, Repr

/-- A stored row.  `created_at` / `updated_at` are the two audit fields
(always written by the store itself); `data` holds every other column as an
association list, where an absent key reads as SQL NULL. -/
structure StoredRow where
  created_at : Nat
  updated_at : Nat
  data : List (String × SQLVal)
deriving DecidableEq, Repr

/-- The single cache table: its evolving schema and its rows. -/
structure Table where
  schema : List ColumnDef
  rows : List StoredRow
deriving DecidableEq, Repr

/-- The database file: `none` while the table has not been created. -/
structure Store where
  table? : Option Table
deriving DecidableEq, Repr

/-- Outcome of one `upsert_rows` call (src/dao/sqlite_client.py 186-254):
`emptyBatch` is the early return on `df.empty`; `missingKeyColumns` is the
`ValueError` carrying the missing PK columns; `storageFailure` is any fault
raised out of the write transaction after `get_connection` rolled it back;
`ok` is the committed case. -/
inductive UpsertOutcome where
  | emptyBatch
  | missingKeyColumns (missing : List String)
  | storageFailure
  | ok
deriving DecidableEq, Repr

/-- True iff the outcome is the `MissingKeyColumns` failure. -/
def isMissingKey : UpsertOutcome → Bool
  | .missingKeyColumns _ => true
  | _ => false

/-! ## Mapping registry (src/mapping.py) -/

/-- One entry of `VAR_MAP[semantic][origem]`: the physical code (possibly
`None`) and the declared type. -/
structure VarEntry where
  codigo : Option String
  tipo : String
deriving DecidableEq, Repr

/-- `VAR_MAP` of src/mapping.py 20-96, verbatim. -/
def VAR_MAP : List (String × List (String × VarEntry)) := [
  ("identificador_unidade", [
    ("2013", ⟨some "upa_pns", "string"⟩),
    ("2019", ⟨some "upa_pns", "string"⟩)]),
  ("sigla_uf", [
    ("2013", ⟨some "sigla_uf", "string"⟩),
    ("2019", ⟨some "sigla_uf", "string"⟩)]),
  ("v0024", [
    ("2013", ⟨some "v0024", "string"⟩),
    ("2019", ⟨some "v0024", "string"⟩)]),
  ("sexo", [
    ("2013", ⟨some "c006", "string"⟩),
    ("2019", ⟨some "c006", "string"⟩)]),
  ("idade", [
    ("2013", ⟨some "c008", "int"⟩),
    ("2019", ⟨some "c008", "int"⟩)]),
  ("preventivo", [
    ("2013", ⟨some "r001", "string"⟩),
    ("2019", ⟨some "r001", "string"⟩)]),
  ("mamografia", [
    ("2013", ⟨some "r015", "string"⟩),
    ("2019", ⟨some "r015", "string"⟩)]),
  ("renda_per_capita", [
    ("2013", ⟨some "vdf003", "float"⟩),
    ("2019", ⟨some "vdf003", "float"⟩)]),
  ("peso_amostral", [
    ("2013", ⟨some "v00291", "float"⟩),
    ("2019", ⟨some "v00291", "float"⟩)]),
  ("preventivo_pagou", [
    ("2013", ⟨some "r012", "string"⟩),
    ("2019", ⟨some "r012", "string"⟩)]),
  ("medico_pediu_mamografia", [
    ("2013", ⟨some "r014", "string"⟩),
    ("2019", ⟨some "r014", "string"⟩)]),
  ("mamografia_pagou", [
    ("2013", ⟨some "r019", "string"⟩),
    ("2019", ⟨some "r019", "string"⟩)]),
  ("raca", [
    ("2013", ⟨some "c009", "string"⟩),
    ("2019", ⟨some "c009", "string"⟩)]),
  ("anos_estudo", [
    ("2013", ⟨some "vdd004a", "int"⟩),
    ("2019", ⟨some "vdd004a", "int"⟩)]),
  ("ja_engravidou", [
    ("2013", ⟨some "r039", "string"⟩),
    ("2019", ⟨some "r039", "string"⟩)]),
  ("filhos_vivos", [
    ("2013", ⟨some "r045", "int"⟩),
    ("2019", ⟨some "r045", "int"⟩)]),
  ("estado_civil", [
    ("2013", ⟨some "c011", "string"⟩),
    ("2019", ⟨some "c011", "string"⟩)])]

/-- `get_codigo_fisico` (src/mapping.py 100-117): two-level lookup, then the
(possibly null) physical code. -/
def get_codigo_fisico (variavel_semantica origem : String) : Option String :=
  match VAR_MAP.lookup variavel_semantica with
  | none => none
  | some m =>
    match m.lookup origem with
    | none => none
    | some e => e.codigo

/-- `get_tipo` (src/mapping.py 120-137): same lookup, returning the declared
type. -/
def get_tipo (variavel_semantica origem : String) : Option String :=
  match VAR_MAP.lookup variavel_semantica with
  | none => none
  | some m =>
    match m.lookup origem with
    | none => none
    | some e => some e.tipo

/-- `variavel_existe` (src/mapping.py 140-152): true iff the physical code
is not `None`. -/
def variavel_existe (variavel_semantica origem : String) : Bool :=
  (get_codigo_fisico variavel_semantica origem).isSome

/-- `listar_variaveis_disponiveis` (src/mapping.py 155-172). -/
def listar_variaveis_disponiveis (origem : Option String) : List String :=
  match origem with
  | none => VAR_MAP.map (fun p => p.1)
  | some o => (VAR_MAP.map (fun p => p.1)).filter (fun v => variavel_existe v o)

/-! ## Column type inference (inline in `ensure_columns_exist`,
src/dao/sqlite_client.py 173-181) -/

/-- ASCII lower-casing of one character (`str.lower` on the column names
that occur here). -/
def charLower (c : Char) : Char :=
  if 65 ≤ c.toNat ∧ c.toNat ≤ 90 then Char.ofNat (c.toNat + 32) else c

/-- Whether `p` is a leading segment of `l`. -/
def listStartsWith : List Char → List Char → Bool
  | [], _ => true
  | _ :: _, [] => false
  | p :: ps, c :: cs => p == c && listStartsWith ps cs

/-- Whether `p` occurs contiguously anywhere inside `l`
(Python's `p in s` on strings). -/
def listHasSub (p : List Char) : List Char → Bool
  | [] => listStartsWith p []
  | c :: cs => listStartsWith p (c :: cs) || listHasSub p cs

/-- Python `s.endswith(p)`. -/
def strEndsWith (s p : String) : Bool :=
  listStartsWith p.data.reverse s.data.reverse

/-- Python `p in s` (substring containment). -/
def strHasSub (s p : String) : Bool :=
  listHasSub p.data s.data

/-- Python `s.lower()` (the names used are ASCII). -/
def strLower (s : String) : String :=
  ⟨s.data.map charLower⟩

/-- The reserved control columns of src/dao/sqlite_client.py 170. -/
def reservedNames : List String :=
  ["origem", "identificador_unidade", "created_at", "updated_at"]

/-- The two audit columns excluded from inserted/updated data columns
(src/dao/sqlite_client.py 224-225). -/
def tsNames : List String := ["created_at", "updated_at"]

/-- The name-based type inference of `ensure_columns_exist`
(src/dao/sqlite_client.py 173-181), applied to a column that passed the
existing/reserved checks: `_at` suffix gives DATETIME; an age/count keyword
occurring anywhere in the lower-cased name gives INTEGER; a monetary/weight
keyword gives REAL; otherwise TEXT. -/
def inferColumnType (col_name : String) : String :=
  if strEndsWith col_name "_at" || (col_name ∈ (["created_at", "updated_at"] : List String)) then
    "DATETIME"
  else if (["idade", "anos", "filhos", "count"] : List String).any
      (fun keyword => strHasSub (strLower col_name) keyword) then
    "INTEGER"
  else if (["peso", "renda", "per_capita"] : List String).any
      (fun keyword => strHasSub (strLower col_name) keyword) then
    "REAL"
  else
    "TEXT"

/-! ## Schema operations (src/dao/sqlite_client.py 50-183) -/

/-- `table_exists` (src/dao/sqlite_client.py 50-66). -/
def table_exists (s : Store) : Bool :=
  s.table?.isSome

/-- `get_table_columns` (src/dao/sqlite_client.py 69-83): the ordered column
names of the table (`PRAGMA table_info`). -/
def get_table_columns (t : Table) : List String :=
  t.schema.map (fun cd => cd.name)

/-- The schema written by the `CREATE TABLE` of `ensure_table_exists`
(src/dao/sqlite_client.py 104-112): the two NOT NULL key columns forming the
composite primary key, then the two audit columns with
`DEFAULT CURRENT_TIMESTAMP`. -/
def baseSchema : List ColumnDef :=
  [⟨"origem", "TEXT", true, true, false⟩,
   ⟨"identificador_unidade", "TEXT", true, true, false⟩,
   ⟨"created_at", "DATETIME", false, false, true⟩,
   ⟨"updated_at", "DATETIME", false, false, true⟩]

/-- The freshly created, empty table. -/
def baseTable : Table :=
  { schema := baseSchema, rows := [] }

/-- `ensure_table_exists` (src/dao/sqlite_client.py 86-113). -/
def ensure_table_exists (s : Store) : Store :=
  if table_exists s then s else { table? := some baseTable }

/-- `add_column_if_not_exists` (src/dao/sqlite_client.py 116-144): checks
`PRAGMA table_info` first; `ALTER TABLE ADD COLUMN` appends a nullable,
non-key column with no default. -/
def add_column_if_not_exists (column_name column_type : String) (t : Table) : Table :=
  if (get_table_columns t).contains column_name then t
  else { t with schema := t.schema ++ [⟨column_name, column_type, false, false, false⟩] }

/-- `ensure_columns_exist` (src/dao/sqlite_client.py 147-183): the existing
column list is read once up front; each name not already present and not
reserved is added with its inferred type. -/
def ensure_columns_exist (column_names : List String) (t : Table) : Table :=
  let existing_columns := get_table_columns t
  column_names.foldl
    (fun acc col_name =>
      if existing_columns.contains col_name then acc
      else if reservedNames.contains col_name then acc
      else add_column_if_not_exists col_name (inferColumnType col_name) acc)
    t

/-! ## Upsert (src/dao/sqlite_client.py 186-254) -/

/-- Read a string-keyed association list as SQL does: an absent key is NULL. -/
def lookupD (l : List (String × SQLVal)) (c : String) : SQLVal :=
  (l.lookup c).getD SQLVal.null

/-- The value bound to column `c` for the positional row `r` of a batch with
columns `cols` (how `df[columns_to_insert]` reads a cell). -/
def cellVal (cols : List String) (r : List SQLVal) (c : String) : SQLVal :=
  lookupD (cols.zip r) c

/-- The value stored in column `c` of row `sr` (audit fields excluded). -/
def getCol (sr : StoredRow) (c : String) : SQLVal :=
  lookupD sr.data c

/-- Assignment `c = v` inside a row's data columns. -/
def setCol (d : List (String × SQLVal)) (c : String) (v : SQLVal) : List (String × SQLVal) :=
  (c, v) :: d.filter (fun p => p.1 != c)

/-- The conflict-target values `(origem, identificador_unidade)` of a batch
row (the `ON CONFLICT(origem, identificador_unidade)` clause). -/
def keyOf (cols : List String) (r : List SQLVal) : SQLVal × SQLVal :=
  (cellVal cols r "origem", cellVal cols r "identificador_unidade")

/-- The conflict-target values of a stored row. -/
def rowKey (sr : StoredRow) : SQLVal × SQLVal :=
  (getCol sr "origem", getCol sr "identificador_unidade")

/-- Effect of one statement of the `executemany` (src/dao/sqlite_client.py
243-252): `INSERT ... VALUES (..., CURRENT_TIMESTAMP, CURRENT_TIMESTAMP)
ON CONFLICT(origem, identificador_unidade) DO UPDATE SET <uc> = excluded.<uc>,
updated_at = CURRENT_TIMESTAMP`.  `cti` is `columns_to_insert`, `uc` is
`update_columns`. -/
def applyRow (cols cti uc : List String) (now : Nat) (rs : List StoredRow)
    (r : List SQLVal) : List StoredRow :=
  if rs.any (fun sr => decide (rowKey sr = keyOf cols r)) then
    rs.map (fun sr =>
      if rowKey sr = keyOf cols r then
        { sr with
          updated_at := now,
          data := uc.foldl (fun d c => setCol d c (cellVal cols r c)) sr.data }
      else sr)
  else
    rs ++ [{ created_at := now, updated_at := now,
             data := cti.map (fun c => (c, cellVal cols r c)) }]

/-- `missing_pk` of src/dao/sqlite_client.py 214 (with the `None` default of
line 210-211 resolved). -/
def missingPkOf (df : DataFrame) (pk_columns : Option (List String)) : List String :=
  (pk_columns.getD ["origem", "identificador_unidade"]).filter
    (fun c => !(df.cols.contains c))

/-- `columns_to_insert` (src/dao/sqlite_client.py 224-225). -/
def ctiOf (df : DataFrame) : List String :=
  df.cols.filter (fun c => !(tsNames.contains c))

/-- `update_columns` (src/dao/sqlite_client.py 235). -/
def ucOf (df : DataFrame) (pk_columns : Option (List String)) : List String :=
  (ctiOf df).filter (fun c => !((pk_columns.getD ["origem", "identificador_unidade"]).contains c))

/-- A batch row that would bind NULL to a NOT NULL key column: the INSERT
raises `IntegrityError`, which aborts (and rolls back) the whole write
transaction. -/
def violationOf (df : DataFrame) : Bool :=
  df.rows.any (fun r =>
    decide (cellVal df.cols r "origem" = SQLVal.null) ||
    decide (cellVal df.cols r "identificador_unidade" = SQLVal.null))

/-- The committed effect of the `executemany` on the stored rows. -/
def writeRows (df : DataFrame) (pk_columns : Option (List String)) (now : Nat)
    (rs : List StoredRow) : List StoredRow :=
  df.rows.foldl (fun acc r => applyRow df.cols (ctiOf df) (ucOf df pk_columns) now acc r) rs

/-- `upsert_rows` (src/dao/sqlite_client.py 186-254).  Stages, in source
order: the `df.empty` early return; the missing-PK `ValueError`; the schema
growth by `ensure_columns_exist` (each column change committed in its own
connection); then the single write transaction, which on a fault (oracle
`fault`, or a NOT NULL key violation) is rolled back by `get_connection`
before the error propagates. -/
def upsert_rows (df : DataFrame) (pk_columns : Option (List String)) (now : Nat)
    (fault : Bool) (t : Table) : UpsertOutcome × Table :=
  if dfEmpty df then (.emptyBatch, t)
  else if !(missingPkOf df pk_columns).isEmpty then
    (.missingKeyColumns (missingPkOf df pk_columns), t)
  else if fault || violationOf df then
    (.storageFailure, ensure_columns_exist df.cols t)
  else
    (.ok, { ensure_columns_exist df.cols t with
            rows := writeRows df pk_columns now (ensure_columns_exist df.cols t).rows })

/-- A sequence of default-keyed, fault-free upserts, each with its own clock
reading. -/
def applyBatches (bs : List (DataFrame × Nat)) (t : Table) : Table :=
  bs.foldl (fun acc p => (upsert_rows p.1 none p.2 false acc).2) t

/-- The batch with any caller-supplied `created_at` / `updated_at` columns
removed (both the column names and the corresponding cell of every row). -/
def dropTs (df : DataFrame) : DataFrame :=
  { cols := df.cols.filter (fun c => !(tsNames.contains c)),
    rows := df.rows.map (fun r =>
      ((df.cols.zip r).filter (fun p => !(tsNames.contains p.1))).map (fun p => p.2)) }

/-- The schema entry of column `c`, if any. -/
def findCol (t : Table) (c : String) : Option ColumnDef :=
  t.schema.find? (fun cd => cd.name == c)

/-! ## Concrete fixtures used by witnesses and counterexamples -/

/-- A one-row batch updating `idade` for the key `("2013", "UPA001")`. -/
def dfIdade : DataFrame :=
  { cols := ["origem", "identificador_unidade", "idade"],
    rows := [[.textV "2013", .textV "UPA001", .intV 31]] }

/-- A stored row for key `("2013", "UPA001")` with `idade = 30` and an extra
`sexo` column, created at clock 1. -/
def rowU1 : StoredRow :=
  { created_at := 1, updated_at := 1,
    data := [("origem", .textV "2013"), ("identificador_unidade", .textV "UPA001"),
             ("idade", .intV 30), ("sexo", .textV "2")] }

/-- A table holding `rowU1`. -/
def tableU1 : Table :=
  { schema := baseSchema ++
      [⟨"idade", "INTEGER", false, false, false⟩, ⟨"sexo", "TEXT", false, false, false⟩],
    rows := [rowU1] }

/-- A one-row batch carrying the previously unseen column `renda_per_capita`. -/
def dfRenda : DataFrame :=
  { cols := ["origem", "identificador_unidade", "renda_per_capita"],
    rows := [[.textV "2013", .textV "UPA001", .realV 100]] }

/-- A zero-row batch whose column set lacks both primary-key columns. -/
def dfNoPk : DataFrame := { cols := ["x"], rows := [] }

/-- A batch that also carries a caller-supplied `created_at` column. -/
def dfWithTs : DataFrame :=
  { cols := ["origem", "identificador_unidade", "created_at", "idade"],
    rows := [[.textV "2013", .textV "UPA001", .textV "bogus", .intV 31]] }

/-- A nonempty one-row batch whose only column is the caller-supplied
`created_at`. -/
def dfOnlyTs : DataFrame := { cols := ["created_at"], rows := [[.null]] }

/-! ## Helper lemmas: association-list reads and writes -/

theorem lookup_cons_ne {β : Type} (k c : String) (v : β) (l : List (String × β)) (h : k ≠ c) :
    (((k, v)) :: l).lookup c = l.lookup c := by
  have hb : (c == k) = false := by simp [Ne.symm h]
  simp [List.lookup, hb]

theorem lookup_cons_eq {β : Type} (k : String) (v : β) (l : List (String × β)) :
    (((k, v)) :: l).lookup k = some v := by
  simp [List.lookup]

theorem lookup_filter_ne (c c' : String) (h : c' ≠ c) (l : List (String × SQLVal)) :
    (l.filter (fun p => p.1 != c)).lookup c' = l.lookup c' := by
  induction l with
  | nil => rfl
  | cons p l ih =>
    obtain ⟨k, v⟩ := p
    by_cases hk : k = c
    · subst hk
      have hf : ((k, v).1 != k) = false := by simp
      rw [List.filter_cons, hf]
      simp only [Bool.false_eq_true, if_false]
      rw [ih, lookup_cons_ne k c' v l (fun he => h he.symm)]
    · have hf : ((k, v).1 != c) = true := by simp [hk]
      rw [List.filter_cons, hf]
      simp only [if_true]
      by_cases hkc : k = c'
      · subst hkc
        rw [lookup_cons_eq, lookup_cons_eq]
      · rw [lookup_cons_ne k c' v _ hkc, lookup_cons_ne k c' v l hkc, ih]

theorem lookupD_setCol_ne (d : List (String × SQLVal)) (c c' : String) (v : SQLVal)
    (h : c' ≠ c) : lookupD (setCol d c v) c' = lookupD d c' := by
  unfold lookupD setCol
  rw [lookup_cons_ne c c' v _ (fun he => h he.symm), lookup_filter_ne c c' h d]

theorem lookupD_foldl_setCol_not_mem (uc : List String) (f : String → SQLVal)
    (c' : String) (h : c' ∉ uc) :
    ∀ d : List (String × SQLVal),
      lookupD (uc.foldl (fun d c => setCol d c (f c)) d) c' = lookupD d c' := by
  induction uc with
  | nil => intro d; rfl
  | cons c uc ih =>
    intro d
    have hne : c' ≠ c := fun he => h (he ▸ List.mem_cons_self c uc)
    have hnm : c' ∉ uc := fun hm => h (List.mem_cons_of_mem c hm)
    rw [List.foldl_cons, ih hnm, lookupD_setCol_ne d c c' (f c) hne]

/-! ## Helper lemmas: pointwise effect of the write loop on stored rows -/

theorem applyRow_pointwise (cols cti uc : List String) (now : Nat)
    (rs : List StoredRow) (r : List SQLVal) (i : Nat) (sr : StoredRow)
    (h : rs[i]? = some sr) :
    ∃ sr', (applyRow cols cti uc now rs r)[i]? = some sr' ∧
      sr'.created_at = sr.created_at ∧
      (sr'.updated_at = sr.updated_at ∨ sr'.updated_at = now) ∧
      ∀ c, c ∉ uc → getCol sr' c = getCol sr c := by
  unfold applyRow
  by_cases hany : rs.any (fun sr => decide (rowKey sr = keyOf cols r)) = true
  · rw [if_pos hany, List.getElem?_map _ rs i, h, Option.map_some']
    by_cases hk : rowKey sr = keyOf cols r
    · refine ⟨_, rfl, ?_⟩
      dsimp only
      rw [if_pos hk]
      refine ⟨rfl, Or.inr rfl, fun c hc => ?_⟩
      exact lookupD_foldl_setCol_not_mem uc (cellVal cols r) c hc sr.data
    · refine ⟨_, rfl, ?_⟩
      dsimp only
      rw [if_neg hk]
      exact ⟨rfl, Or.inl rfl, fun c _ => rfl⟩
  · rw [if_neg hany]
    have hlen : i < rs.length := by
      rw [List.getElem?_eq_some] at h; exact h.1
    rw [List.getElem?_append_left hlen]
    exact ⟨sr, h, rfl, Or.inl rfl, fun c _ => rfl⟩

theorem foldl_applyRow_pointwise (cols cti uc : List String) (now : Nat)
    (brs : List (List SQLVal)) :
    ∀ (rs : List StoredRow) (i : Nat) (sr : StoredRow), rs[i]? = some sr →
      ∃ sr', (brs.foldl (fun acc r => applyRow cols cti uc now acc r) rs)[i]? = some sr' ∧
        sr'.created_at = sr.created_at ∧
        (sr'.updated_at = sr.updated_at ∨ sr'.updated_at = now) ∧
        ∀ c, c ∉ uc → getCol sr' c = getCol sr c := by
  induction brs with
  | nil => exact fun rs i sr h => ⟨sr, h, rfl, Or.inl rfl, fun c _ => rfl⟩
  | cons r brs ih =>
    intro rs i sr h
    obtain ⟨sr₁, h1, hc1, hu1, hf1⟩ := applyRow_pointwise cols cti uc now rs r i sr h
    obtain ⟨sr₂, h2, hc2, hu2, hf2⟩ := ih (applyRow cols cti uc now rs r) i sr₁ h1
    refine ⟨sr₂, h2, hc2.trans hc1, ?_, fun c hc => (hf2 c hc).trans (hf1 c hc)⟩
    rcases hu2 with h' | h'
    · rcases hu1 with h'' | h''
      · exact Or.inl (h'.trans h'')
      · exact Or.inr (h'.trans h'')
    · exact Or.inr h'

theorem rowKey_eq_of_frame (sr sr' : StoredRow) (uc : List String)
    (ho : "origem" ∉ uc) (hi : "identificador_unidade" ∉ uc)
    (hf : ∀ c, c ∉ uc → getCol sr' c = getCol sr c) :
    rowKey sr' = rowKey sr := by
  unfold rowKey
  rw [hf "origem" ho, hf "identificador_unidade" hi]

theorem applyRow_touch (cols cti uc : List String) (now : Nat)
    (rs : List StoredRow) (r : List SQLVal) (i : Nat) (sr : StoredRow)
    (h : rs[i]? = some sr) (hk : rowKey sr = keyOf cols r) :
    ∃ sr', (applyRow cols cti uc now rs r)[i]? = some sr' ∧
      sr'.updated_at = now ∧ sr'.created_at = sr.created_at ∧
      ∀ c, c ∉ uc → getCol sr' c = getCol sr c := by
  have hmem : sr ∈ rs := List.getElem?_mem h
  have hany : rs.any (fun sr => decide (rowKey sr = keyOf cols r)) = true :=
    List.any_eq_true.mpr ⟨sr, hmem, by simp [hk]⟩
  unfold applyRow
  rw [if_pos hany, List.getElem?_map _ rs i, h, Option.map_some']
  refine ⟨_, rfl, ?_⟩
  dsimp only
  rw [if_pos hk]
  refine ⟨rfl, rfl, fun c hc => ?_⟩
  exact lookupD_foldl_setCol_not_mem uc (cellVal cols r) c hc sr.data

theorem foldl_applyRow_touched (cols cti uc : List String) (now : Nat)
    (ho : "origem" ∉ uc) (hi : "identificador_unidade" ∉ uc)
    (brs : List (List SQLVal)) :
    ∀ (rs : List StoredRow) (i : Nat) (sr : StoredRow), rs[i]? = some sr →
      (∃ r ∈ brs, keyOf cols r = rowKey sr) →
      ∃ sr', (brs.foldl (fun acc r => applyRow cols cti uc now acc r) rs)[i]? = some sr' ∧
        sr'.updated_at = now := by
  induction brs with
  | nil => rintro rs i sr h ⟨r, hr, -⟩; exact absurd hr (List.not_mem_nil r)
  | cons r brs ih =>
    rintro rs i sr h ⟨r₀, hr₀, hkey⟩
    by_cases hk : rowKey sr = keyOf cols r
    · obtain ⟨sr₁, h1, hu1, -, hf1⟩ := applyRow_touch cols cti uc now rs r i sr h hk
      obtain ⟨sr₂, h2, -, hu2, -⟩ :=
        foldl_applyRow_pointwise cols cti uc now brs (applyRow cols cti uc now rs r) i sr₁ h1
      refine ⟨sr₂, h2, ?_⟩
      rcases hu2 with h' | h'
      · exact h'.trans hu1
      · exact h'
    · obtain ⟨sr₁, h1, -, -, hf1⟩ := applyRow_pointwise cols cti uc now rs r i sr h
      have hkey₁ : rowKey sr₁ = rowKey sr := rowKey_eq_of_frame sr sr₁ uc ho hi hf1
      rcases List.mem_cons.mp hr₀ with he | hm
      · exact absurd (he ▸ hkey).symm hk
      · exact ih (applyRow cols cti uc now rs r) i sr₁ h1 ⟨r₀, hm, hkey₁ ▸ hkey⟩

theorem applyRow_new_region (cols cti uc : List String) (now : Nat)
    (rs : List StoredRow) (r : List SQLVal) (n : Nat)
    (hP : ∀ j sr', n ≤ j → rs[j]? = some sr' →
      sr'.created_at = now ∧ sr'.updated_at = now) :
    ∀ j sr', n ≤ j → (applyRow cols cti uc now rs r)[j]? = some sr' →
      sr'.created_at = now ∧ sr'.updated_at = now := by
  intro j sr' hj h
  unfold applyRow at h
  by_cases hany : rs.any (fun sr => decide (rowKey sr = keyOf cols r)) = true
  · rw [if_pos hany, List.getElem?_map _ rs j] at h
    cases h0 : rs[j]? with
    | none => rw [h0] at h; exact absurd h (by simp)
    | some sr₀ =>
      rw [h0] at h
      obtain ⟨hc0, hu0⟩ := hP j sr₀ hj h0
      simp only [Option.map_some'] at h
      cases h
      by_cases hk : rowKey sr₀ = keyOf cols r
      · rw [if_pos hk]; exact ⟨hc0, rfl⟩
      · rw [if_neg hk]; exact ⟨hc0, hu0⟩
  · rw [if_neg hany] at h
    by_cases hlen : j < rs.length
    · rw [List.getElem?_append_left hlen] at h
      exact hP j sr' hj h
    · push_neg at hlen
      rw [List.getElem?_append_right hlen] at h
      cases hd : j - rs.length with
      | zero => rw [hd] at h; cases h; exact ⟨rfl, rfl⟩
      | succ m => rw [hd] at h; exact absurd h (by simp)

theorem foldl_applyRow_new_region (cols cti uc : List String) (now : Nat)
    (brs : List (List SQLVal)) :
    ∀ (rs : List StoredRow) (n : Nat),
      (∀ j sr', n ≤ j → rs[j]? = some sr' →
        sr'.created_at = now ∧ sr'.updated_at = now) →
      ∀ j sr', n ≤ j →
        (brs.foldl (fun acc r => applyRow cols cti uc now acc r) rs)[j]? = some sr' →
        sr'.created_at = now ∧ sr'.updated_at = now := by
  induction brs with
  | nil => exact fun rs n hP => hP
  | cons r brs ih =>
    intro rs n hP
    exact ih (applyRow cols cti uc now rs r) n
      (applyRow_new_region cols cti uc now rs r n hP)

/-! ## Helper lemmas: schema operations -/

theorem add_column_rows (c ty : String) (t : Table) :
    (add_column_if_not_exists c ty t).rows = t.rows := by
  unfold add_column_if_not_exists
  split <;> rfl

theorem ensure_columns_foldl (ex : List String) (names : List String) :
    ∀ acc : Table,
      (names.foldl
        (fun acc col_name =>
          if ex.contains col_name then acc
          else if reservedNames.contains col_name then acc
          else add_column_if_not_exists col_name (inferColumnType col_name) acc)
        acc).rows = acc.rows := by
  induction names with
  | nil => intro acc; rfl
  | cons c names ih =>
    intro acc
    rw [List.foldl_cons, ih]
    by_cases h1 : ex.contains c = true
    · rw [if_pos h1]
    · rw [if_neg h1]
      by_cases h2 : reservedNames.contains c = true
      · rw [if_pos h2]
      · rw [if_neg h2]
        exact add_column_rows c (inferColumnType c) acc

theorem ensure_columns_rows (names : List String) (t : Table) :
    (ensure_columns_exist names t).rows = t.rows :=
  ensure_columns_foldl (get_table_columns t) names t

theorem mem_columns_add_column (c c' ty : String) (t : Table)
    (h : c ∈ get_table_columns t) :
    c ∈ get_table_columns (add_column_if_not_exists c' ty t) := by
  unfold add_column_if_not_exists
  split
  · exact h
  · unfold get_table_columns at h ⊢
    simp only [List.map_append]
    exact List.mem_append_left _ h

theorem find?_eq_some_of_mem {α : Type} (p : α → Bool) (l : List α) (x : α)
    (hx : x ∈ l) (hp : p x = true) : ∃ b, l.find? p = some b := by
  induction l with
  | nil => exact absurd hx (List.not_mem_nil x)
  | cons y l ih =>
    cases hpy : p y with
    | true => exact ⟨y, List.find?_cons_of_pos l hpy⟩
    | false =>
      rcases List.mem_cons.mp hx with he | hm
      · rw [← he, hp] at hpy; cases hpy
      · obtain ⟨b, hb⟩ := ih hm
        exact ⟨b, by rw [List.find?_cons_of_neg l (by simp [hpy])]; exact hb⟩

theorem find?_append_some {α : Type} (p : α → Bool) (l₁ l₂ : List α) (a : α)
    (h : l₁.find? p = some a) : (l₁ ++ l₂).find? p = some a := by
  induction l₁ with
  | nil => cases h
  | cons x l ih =>
    cases hpx : p x with
    | true =>
      rw [List.find?_cons_of_pos l hpx] at h
      rw [List.cons_append, List.find?_cons_of_pos _ hpx]
      exact h
    | false =>
      rw [List.find?_cons_of_neg l (by simp [hpx])] at h
      rw [List.cons_append, List.find?_cons_of_neg _ (by simp [hpx])]
      exact ih h

theorem findCol_add_column (c c' ty : String) (t : Table)
    (h : c ∈ get_table_columns t) :
    findCol (add_column_if_not_exists c' ty t) c = findCol t c := by
  unfold add_column_if_not_exists
  split
  · rfl
  · unfold findCol
    unfold get_table_columns at h
    obtain ⟨cd, hcd, hname⟩ := List.mem_map.mp h
    obtain ⟨b, hb⟩ :=
      find?_eq_some_of_mem (fun cd => cd.name == c) t.schema cd hcd (by simp [hname])
    show (t.schema ++ [(⟨c', ty, false, false, false⟩ : ColumnDef)]).find?
        (fun cd => cd.name == c) = t.schema.find? (fun cd => cd.name == c)
    rw [hb, find?_append_some _ t.schema _ b hb]

theorem findCol_ensure_columns (names : List String) (t : Table) (c : String)
    (h : c ∈ get_table_columns t) :
    findCol (ensure_columns_exist names t) c = findCol t c := by
  unfold ensure_columns_exist
  suffices hgen : ∀ (ex : List String) (acc : Table), c ∈ get_table_columns acc →
      findCol (names.foldl
        (fun acc col_name =>
          if ex.contains col_name then acc
          else if reservedNames.contains col_name then acc
          else add_column_if_not_exists col_name (inferColumnType col_name) acc)
        acc) c = findCol acc c by
    exact hgen (get_table_columns t) t h
  induction names with
  | nil => intro ex acc _; rfl
  | cons c₀ names ih =>
    intro ex acc hacc
    rw [List.foldl_cons]
    by_cases h1 : ex.contains c₀ = true
    · rw [if_pos h1]; exact ih ex acc hacc
    · rw [if_neg h1]
      by_cases h2 : reservedNames.contains c₀ = true
      · rw [if_pos h2]; exact ih ex acc hacc
      · rw [if_neg h2]
        rw [ih ex _ (mem_columns_add_column c c₀ (inferColumnType c₀) acc hacc)]
        exact findCol_add_column c c₀ (inferColumnType c₀) acc hacc

/-! ## Helper lemmas: branch characterizations of `upsert_rows` -/

theorem upsert_rows_empty (df : DataFrame) (pk : Option (List String)) (now : Nat)
    (fault : Bool) (t : Table) (h : dfEmpty df = true) :
    upsert_rows df pk now fault t = (.emptyBatch, t) := by
  unfold upsert_rows
  rw [if_pos h]

theorem upsert_rows_missing (df : DataFrame) (pk : Option (List String)) (now : Nat)
    (fault : Bool) (t : Table) (h1 : dfEmpty df = false)
    (h2 : (missingPkOf df pk).isEmpty = false) :
    upsert_rows df pk now fault t = (.missingKeyColumns (missingPkOf df pk), t) := by
  unfold upsert_rows
  rw [h1, h2]
  rfl

theorem upsert_rows_failure (df : DataFrame) (pk : Option (List String)) (now : Nat)
    (fault : Bool) (t : Table) (h1 : dfEmpty df = false)
    (h2 : (missingPkOf df pk).isEmpty = true) (h3 : (fault || violationOf df) = true) :
    upsert_rows df pk now fault t = (.storageFailure, ensure_columns_exist df.cols t) := by
  unfold upsert_rows
  rw [h1, h2, h3]
  rfl

theorem upsert_rows_ok_eq (df : DataFrame) (pk : Option (List String)) (now : Nat)
    (fault : Bool) (t : Table) (h1 : dfEmpty df = false)
    (h2 : (missingPkOf df pk).isEmpty = true) (h3 : (fault || violationOf df) = false) :
    upsert_rows df pk now fault t =
      (.ok, { ensure_columns_exist df.cols t with
              rows := writeRows df pk now t.rows }) := by
  unfold upsert_rows
  rw [h1, h2, h3, ensure_columns_rows]
  rfl

theorem upsert_rows_ok_inv (df : DataFrame) (pk : Option (List String)) (now : Nat)
    (fault : Bool) (t : Table) (h : (upsert_rows df pk now fault t).1 = .ok) :
    dfEmpty df = false ∧ (missingPkOf df pk).isEmpty = true ∧
      (fault || violationOf df) = false := by
  by_cases h1 : dfEmpty df = true
  · rw [upsert_rows_empty df pk now fault t h1] at h; exact absurd h (by simp)
  · have h1' : dfEmpty df = false := by simpa using h1
    by_cases h2 : (missingPkOf df pk).isEmpty = true
    · by_cases h3 : (fault || violationOf df) = true
      · rw [upsert_rows_failure df pk now fault t h1' h2 h3] at h
        exact absurd h (by simp)
      · exact ⟨h1', h2, by simpa using h3⟩
    · have h2' : (missingPkOf df pk).isEmpty = false := by simpa using h2
      rw [upsert_rows_missing df pk now fault t h1' h2'] at h
      exact absurd h (by simp)

theorem upsert_rows_snd_of_ok (df : DataFrame) (pk : Option (List String)) (now : Nat)
    (fault : Bool) (t : Table) (h : (upsert_rows df pk now fault t).1 = .ok) :
    (upsert_rows df pk now fault t).2 =
      { ensure_columns_exist df.cols t with rows := writeRows df pk now t.rows } := by
  obtain ⟨h1, h2, h3⟩ := upsert_rows_ok_inv df pk now fault t h
  rw [upsert_rows_ok_eq df pk now fault t h1 h2 h3]

/-! ## Helper lemmas: dropping caller-supplied timestamp columns -/

theorem isEmpty_false_of_mem {α : Type} (l : List α) (x : α) (h : x ∈ l) :
    l.isEmpty = false := by
  cases l with
  | nil => exact absurd h (List.not_mem_nil x)
  | cons y l => rfl

theorem lookup_filter_not_bad (bad : List String) (c : String)
    (hc : bad.contains c = false) :
    ∀ l : List (String × SQLVal),
      (l.filter (fun p => !(bad.contains p.1))).lookup c = l.lookup c := by
  intro l
  induction l with
  | nil => rfl
  | cons p l ih =>
    obtain ⟨k, v⟩ := p
    by_cases hk : bad.contains k = true
    · have hne : k ≠ c := fun he => by rw [he, hc] at hk; cases hk
      have hf : ¬((!(bad.contains (k, v).1)) = true) := by
        show ¬((!(bad.contains k)) = true)
        rw [hk]
        simp
      rw [List.filter_cons_of_neg (p := fun w : String × SQLVal => !(bad.contains w.1)) hf, ih,
        lookup_cons_ne k c v l hne]
    · have hk' : bad.contains k = false := by simpa using hk
      have hf : (!(bad.contains (k, v).1)) = true := by
        show (!(bad.contains k)) = true
        rw [hk']
        rfl
      rw [List.filter_cons_of_pos (p := fun w : String × SQLVal => !(bad.contains w.1)) hf]
      by_cases hkc : k = c
      · subst hkc
        rw [lookup_cons_eq, lookup_cons_eq]
      · rw [lookup_cons_ne k c v _ hkc, lookup_cons_ne k c v l hkc, ih]

theorem contains_filter_not_bad (bad : List String) (c : String)
    (hc : bad.contains c = false) :
    ∀ l : List String, (l.filter (fun x => !(bad.contains x))).contains c = l.contains c := by
  intro l
  induction l with
  | nil => rfl
  | cons x l ih =>
    by_cases hx : bad.contains x = true
    · have hne : c ≠ x := fun he => by rw [← he, hc] at hx; cases hx
      have hf : ¬((!(bad.contains x)) = true) := by rw [hx]; simp
      have hbx : (c == x) = false := by simp [hne]
      rw [List.filter_cons_of_neg (p := fun w : String => !(bad.contains w)) hf, ih,
        List.contains_cons, hbx, Bool.false_or]
    · have hx' : bad.contains x = false := by simpa using hx
      have hf : (!(bad.contains x)) = true := by rw [hx']; rfl
      rw [List.filter_cons_of_pos (p := fun w : String => !(bad.contains w)) hf,
        List.contains_cons, List.contains_cons, ih]

theorem zip_filter_map (q : String → Bool) :
    ∀ (cols : List String) (r : List SQLVal), r.length = cols.length →
      (cols.filter q).zip (((cols.zip r).filter (fun p => q p.1)).map (fun p => p.2)) =
        (cols.zip r).filter (fun p => q p.1) := by
  intro cols
  induction cols with
  | nil => intro r _; rfl
  | cons c cols ih =>
    intro r h
    cases r with
    | nil => simp at h
    | cons v r =>
      have h' : r.length = cols.length := by simpa using h
      by_cases hq : q c = true
      · have hp : ((fun w : String × SQLVal => q w.1) (c, v)) = true := hq
        simp only [List.zip_cons_cons, List.filter_cons_of_pos (p := q) hq,
          List.filter_cons_of_pos (p := fun w : String × SQLVal => q w.1) hp, List.map_cons]
        rw [ih r h']
      · have hp : ¬(((fun w : String × SQLVal => q w.1) (c, v)) = true) := hq
        rw [List.zip_cons_cons, List.filter_cons_of_neg (p := q) hq,
          List.filter_cons_of_neg (p := fun w : String × SQLVal => q w.1) hp]
        exact ih r h'

theorem cellVal_dropTs (cols : List String) (r : List SQLVal)
    (h : r.length = cols.length) (c : String) (hc : tsNames.contains c = false) :
    cellVal (cols.filter (fun c => !(tsNames.contains c)))
      (((cols.zip r).filter (fun p => !(tsNames.contains p.1))).map (fun p => p.2)) c =
      cellVal cols r c := by
  unfold cellVal lookupD
  rw [zip_filter_map (fun c => !(tsNames.contains c)) cols r h]
  rw [lookup_filter_not_bad tsNames c hc (cols.zip r)]

theorem foldl_filter_id {α β : Type} (f : β → α → β) (q : α → Bool)
    (hid : ∀ (acc : β) (x : α), q x = false → f acc x = acc) :
    ∀ (l : List α) (init : β), (l.filter q).foldl f init = l.foldl f init := by
  intro l
  induction l with
  | nil => intro init; rfl
  | cons x l ih =>
    intro init
    by_cases hq : q x = true
    · rw [List.filter_cons_of_pos (p := q) hq, List.foldl_cons, List.foldl_cons]
      exact ih (f init x)
    · have hq' : q x = false := by simpa using hq
      rw [List.filter_cons_of_neg (p := q) hq, List.foldl_cons, hid init x hq']
      exact ih init

theorem ts_contains_reserved (c : String) (h : tsNames.contains c = true) :
    reservedNames.contains c = true := by
  have hm : c = "created_at" ∨ c = "updated_at" := by
    simpa [tsNames] using h
  rcases hm with h1 | h1 <;> subst h1 <;> decide

theorem ensure_columns_dropTs (names : List String) (t : Table) :
    ensure_columns_exist (names.filter (fun c => !(tsNames.contains c))) t =
      ensure_columns_exist names t := by
  unfold ensure_columns_exist
  apply foldl_filter_id
  intro acc c hc
  have hts : tsNames.contains c = true := by simpa using hc
  have hres : reservedNames.contains c = true := ts_contains_reserved c hts
  by_cases h1 : (get_table_columns t).contains c = true
  · rw [if_pos h1]
  · rw [if_neg h1, if_pos hres]

theorem any_congr_mem {α : Type} :
    ∀ (l : List α) (p q : α → Bool), (∀ x ∈ l, p x = q x) → l.any p = l.any q := by
  intro l
  induction l with
  | nil => intro p q _; rfl
  | cons x l ih =>
    intro p q h
    rw [List.any_cons, List.any_cons, h x (List.mem_cons_self x l),
      ih p q (fun y hy => h y (List.mem_cons_of_mem x hy))]

theorem foldl_congr_mem {α β : Type} :
    ∀ (l : List α) (f g : β → α → β),
      (∀ (acc : β) (x : α), x ∈ l → f acc x = g acc x) →
      ∀ init : β, l.foldl f init = l.foldl g init := by
  intro l
  induction l with
  | nil => intro f g _ init; rfl
  | cons x l ih =>
    intro f g h init
    rw [List.foldl_cons, List.foldl_cons, h init x (List.mem_cons_self x l)]
    exact ih f g (fun acc y hy => h acc y (List.mem_cons_of_mem x hy)) (g init x)

theorem applyRow_congr (cols cols' cti uc : List String) (now : Nat)
    (r r' : List SQLVal)
    (hcell : ∀ c, tsNames.contains c = false → cellVal cols' r' c = cellVal cols r c)
    (hcti : ∀ c ∈ cti, tsNames.contains c = false)
    (huc : ∀ c ∈ uc, tsNames.contains c = false)
    (rs : List StoredRow) :
    applyRow cols' cti uc now rs r' = applyRow cols cti uc now rs r := by
  have hkey : keyOf cols' r' = keyOf cols r := by
    unfold keyOf
    rw [hcell "origem" (by decide), hcell "identificador_unidade" (by decide)]
  unfold applyRow
  rw [hkey]
  by_cases hany : rs.any (fun sr => decide (rowKey sr = keyOf cols r)) = true
  · rw [if_pos hany, if_pos hany]
    apply List.map_congr_left
    intro sr _
    dsimp only
    by_cases hk : rowKey sr = keyOf cols r
    · rw [if_pos hk, if_pos hk]
      have hdata : uc.foldl (fun d c => setCol d c (cellVal cols' r' c)) sr.data =
          uc.foldl (fun d c => setCol d c (cellVal cols r c)) sr.data :=
        foldl_congr_mem uc _ _ (fun d c hc => by rw [hcell c (huc c hc)]) sr.data
      rw [hdata]
    · rw [if_neg hk, if_neg hk]
  · rw [if_neg hany, if_neg hany]
    have hdata : cti.map (fun c => (c, cellVal cols' r' c)) =
        cti.map (fun c => (c, cellVal cols r c)) :=
      List.map_congr_left (fun c hc => by rw [hcell c (hcti c hc)])
    rw [hdata]

theorem missingPk_dropTs (df : DataFrame) :
    missingPkOf (dropTs df) none = missingPkOf df none := by
  unfold missingPkOf dropTs
  apply List.filter_congr
  intro c hc
  have hm : c = "origem" ∨ c = "identificador_unidade" := by simpa using hc
  have hts : tsNames.contains c = false := by
    rcases hm with h1 | h1 <;> subst h1 <;> decide
  congr 1
  exact contains_filter_not_bad tsNames c hts df.cols

theorem cti_dropTs (df : DataFrame) : ctiOf (dropTs df) = ctiOf df := by
  unfold ctiOf dropTs
  rw [List.filter_filter]
  apply List.filter_congr
  intro x _
  rw [Bool.and_self]

theorem uc_dropTs (df : DataFrame) (pk : Option (List String)) :
    ucOf (dropTs df) pk = ucOf df pk := by
  unfold ucOf
  rw [cti_dropTs]

theorem violation_dropTs (df : DataFrame)
    (halign : ∀ r ∈ df.rows, r.length = df.cols.length) :
    violationOf (dropTs df) = violationOf df := by
  unfold violationOf dropTs
  rw [List.any_map]
  apply any_congr_mem
  intro r hr
  dsimp only [Function.comp]
  rw [cellVal_dropTs df.cols r (halign r hr) "origem" (by decide),
    cellVal_dropTs df.cols r (halign r hr) "identificador_unidade" (by decide)]

theorem writeRows_dropTs (df : DataFrame) (pk : Option (List String)) (now : Nat)
    (halign : ∀ r ∈ df.rows, r.length = df.cols.length) (rs : List StoredRow) :
    writeRows (dropTs df) pk now rs = writeRows df pk now rs := by
  unfold writeRows
  rw [cti_dropTs, uc_dropTs]
  have hrows : (dropTs df).rows = df.rows.map (fun r =>
      ((df.cols.zip r).filter (fun p => !(tsNames.contains p.1))).map (fun p => p.2)) := rfl
  rw [hrows, List.foldl_map]
  apply foldl_congr_mem
  intro acc r hr
  apply applyRow_congr
  · intro c hc
    exact cellVal_dropTs df.cols r (halign r hr) c hc
  · intro c hc
    have h2 := (List.mem_filter.mp hc).2
    simpa using h2
  · intro c hc
    have hc' : c ∈ ctiOf df := (List.mem_filter.mp hc).1
    have h2 := (List.mem_filter.mp hc').2
    simpa using h2

theorem rows_isEmpty_dropTs (df : DataFrame) :
    ((dropTs df).rows).isEmpty = df.rows.isEmpty := by
  show (df.rows.map _).isEmpty = df.rows.isEmpty
  cases df.rows with
  | nil => rfl
  | cons r l => rfl

theorem dfEmpty_dropTs (df : DataFrame) (h : dfEmpty df = true) :
    dfEmpty (dropTs df) = true := by
  unfold dfEmpty at h ⊢
  rcases (Bool.or_eq_true _ _).mp h with h1 | h1
  · have hnil : df.cols = [] := List.isEmpty_iff.mp h1
    apply (Bool.or_eq_true _ _).mpr
    left
    rw [List.isEmpty_iff]
    show df.cols.filter _ = []
    rw [hnil]
    rfl
  · apply (Bool.or_eq_true _ _).mpr
    right
    rw [rows_isEmpty_dropTs]
    exact h1

theorem missingPk_nonempty_of_no_origem (df : DataFrame) (h : "origem" ∉ df.cols) :
    (missingPkOf df none).isEmpty = false := by
  have hcont : df.cols.contains "origem" = false := by simp [h]
  have hmem : "origem" ∈ missingPkOf df none := by
    unfold missingPkOf
    apply List.mem_filter.mpr
    refine ⟨by decide, ?_⟩
    rw [hcont]
    rfl
  exact isEmpty_false_of_mem _ _ hmem

theorem upsert_dropTs_full (df : DataFrame) (now : Nat) (fault : Bool) (t : Table)
    (halign : ∀ r ∈ df.rows, r.length = df.cols.length)
    (horigem : "origem" ∈ df.cols) :
    upsert_rows (dropTs df) none now fault t = upsert_rows df none now fault t := by
  have hc1 : df.cols.isEmpty = false := isEmpty_false_of_mem _ _ horigem
  have hmem' : "origem" ∈ (dropTs df).cols :=
    List.mem_filter.mpr ⟨horigem, by decide⟩
  have hc2 : ((dropTs df).cols).isEmpty = false := isEmpty_false_of_mem _ _ hmem'
  have hde : dfEmpty (dropTs df) = dfEmpty df := by
    unfold dfEmpty
    rw [hc1, hc2, rows_isEmpty_dropTs]
  cases he : dfEmpty df with
  | true =>
    rw [upsert_rows_empty df none now fault t he,
      upsert_rows_empty (dropTs df) none now fault t (hde.trans he)]
  | false =>
    cases hmp : (missingPkOf df none).isEmpty with
    | false =>
      rw [upsert_rows_missing df none now fault t he hmp,
        upsert_rows_missing (dropTs df) none now fault t (hde.trans he)
          ((missingPk_dropTs df ▸ hmp)), missingPk_dropTs df]
    | true =>
      have hmp' : (missingPkOf (dropTs df) none).isEmpty = true :=
        (missingPk_dropTs df) ▸ hmp
      have hens : ensure_columns_exist (dropTs df).cols t = ensure_columns_exist df.cols t :=
        ensure_columns_dropTs df.cols t
      cases hv : (fault || violationOf df) with
      | true =>
        have hv' : (fault || violationOf (dropTs df)) = true := by
          rw [violation_dropTs df halign]
          exact hv
        rw [upsert_rows_failure df none now fault t he hmp hv,
          upsert_rows_failure (dropTs df) none now fault t (hde.trans he) hmp' hv', hens]
      | false =>
        have hv' : (fault || violationOf (dropTs df)) = false := by
          rw [violation_dropTs df halign]
          exact hv
        rw [upsert_rows_ok_eq df none now fault t he hmp hv,
          upsert_rows_ok_eq (dropTs df) none now fault t (hde.trans he) hmp' hv', hens,
          writeRows_dropTs df none now halign]

theorem upsert_dropTs_state (df : DataFrame) (now : Nat) (fault : Bool) (t : Table)
    (halign : ∀ r ∈ df.rows, r.length = df.cols.length) :
    (upsert_rows (dropTs df) none now fault t).2 = (upsert_rows df none now fault t).2 := by
  by_cases horigem : "origem" ∈ df.cols
  · rw [upsert_dropTs_full df now fault t halign horigem]
  · cases he : dfEmpty df with
    | true =>
      rw [upsert_rows_empty df none now fault t he,
        upsert_rows_empty (dropTs df) none now fault t (dfEmpty_dropTs df he)]
    | false =>
      have hmp : (missingPkOf df none).isEmpty = false :=
        missingPk_nonempty_of_no_origem df horigem
      rw [upsert_rows_missing df none now fault t he hmp]
      cases he' : dfEmpty (dropTs df) with
      | true => rw [upsert_rows_empty (dropTs df) none now fault t he']
      | false =>
        have hmp' : (missingPkOf (dropTs df) none).isEmpty = false :=
          (missingPk_dropTs df) ▸ hmp
        rw [upsert_rows_missing (dropTs df) none now fault t he' hmp']

/-! ## Helper lemmas: membership in the update-column list, mapping lookups -/

theorem mem_cols_of_mem_cti (df : DataFrame) (c : String) (h : c ∈ ctiOf df) :
    c ∈ df.cols :=
  (List.mem_filter.mp h).1

theorem not_mem_uc_of_not_mem_cols (df : DataFrame) (pk : Option (List String))
    (c : String) (h : c ∉ df.cols) : c ∉ ucOf df pk := fun hm =>
  h (mem_cols_of_mem_cti df c (List.mem_filter.mp hm).1)

theorem origem_not_mem_uc (df : DataFrame) : "origem" ∉ ucOf df none := by
  intro h
  exact absurd (List.mem_filter.mp h).2 (by decide)

theorem ident_not_mem_uc (df : DataFrame) : "identificador_unidade" ∉ ucOf df none := by
  intro h
  exact absurd (List.mem_filter.mp h).2 (by decide)

theorem upsert_rows_snd_empty (df : DataFrame) (pk : Option (List String)) (now : Nat)
    (fault : Bool) (t : Table) (h : dfEmpty df = true) :
    (upsert_rows df pk now fault t).2 = t := by
  rw [upsert_rows_empty df pk now fault t h]

theorem upsert_rows_snd_missing (df : DataFrame) (pk : Option (List String)) (now : Nat)
    (fault : Bool) (t : Table) (h1 : dfEmpty df = false)
    (h2 : (missingPkOf df pk).isEmpty = false) :
    (upsert_rows df pk now fault t).2 = t := by
  rw [upsert_rows_missing df pk now fault t h1 h2]

theorem upsert_rows_snd_failure (df : DataFrame) (pk : Option (List String)) (now : Nat)
    (fault : Bool) (t : Table) (h1 : dfEmpty df = false)
    (h2 : (missingPkOf df pk).isEmpty = true) (h3 : (fault || violationOf df) = true) :
    (upsert_rows df pk now fault t).2 = ensure_columns_exist df.cols t := by
  rw [upsert_rows_failure df pk now fault t h1 h2 h3]

theorem upsert_created_pointwise (df : DataFrame) (pk : Option (List String)) (now : Nat)
    (fault : Bool) (t : Table) (i : Nat) (sr : StoredRow) (hsr : t.rows[i]? = some sr) :
    ∃ sr', (upsert_rows df pk now fault t).2.rows[i]? = some sr' ∧
      sr'.created_at = sr.created_at := by
  by_cases h1 : dfEmpty df = true
  · rw [upsert_rows_snd_empty df pk now fault t h1]
    exact ⟨sr, hsr, rfl⟩
  · have h1' : dfEmpty df = false := by simpa using h1
    by_cases h2 : (missingPkOf df pk).isEmpty = true
    · by_cases h3 : (fault || violationOf df) = true
      · rw [upsert_rows_snd_failure df pk now fault t h1' h2 h3, ensure_columns_rows]
        exact ⟨sr, hsr, rfl⟩
      · have h3' : (fault || violationOf df) = false := by simpa using h3
        rw [upsert_rows_ok_eq df pk now fault t h1' h2 h3']
        obtain ⟨sr', hget, hc, -, -⟩ := foldl_applyRow_pointwise df.cols (ctiOf df)
          (ucOf df pk) now df.rows t.rows i sr hsr
        exact ⟨sr', hget, hc⟩
    · have h2' : (missingPkOf df pk).isEmpty = false := by simpa using h2
      rw [upsert_rows_snd_missing df pk now fault t h1' h2']
      exact ⟨sr, hsr, rfl⟩

/-! ## Claim theorems -/

/-- C1: for every upsert batch (default key columns) that commits, every row
already stored keeps, in every column not supplied by the batch, exactly its
prior value (in particular it is never nulled out), and keeps its
`created_at`; the upsert updates only the columns supplied in the batch
(plus the audit field `updated_at`, which the same spec sentence sets to the
current time). -/
theorem upsert_frame_preserves_untouched_columns (df : DataFrame) (now : Nat) (t : Table)
    (h : (upsert_rows df none now false t).1 = .ok)
    (i : Nat) (sr : StoredRow) (hsr : t.rows[i]? = some sr) :
    ∃ sr', (upsert_rows df none now false t).2.rows[i]? = some sr' ∧
      sr'.created_at = sr.created_at ∧
      ∀ c, c ∉ df.cols → getCol sr' c = getCol sr c := by
  rw [upsert_rows_snd_of_ok df none now false t h]
  obtain ⟨sr', hget, hc, -, hf⟩ := foldl_applyRow_pointwise df.cols (ctiOf df)
    (ucOf df none) now df.rows t.rows i sr hsr
  exact ⟨sr', hget, hc, fun c hc' => hf c (not_mem_uc_of_not_mem_cols df none c hc')⟩

/-- Witness for C1: a committed upsert of `idade` for an existing key leaves
the untouched `sexo` column and `created_at` exactly as stored. -/
theorem upsert_frame_preserves_untouched_columns_witness :
    (upsert_rows dfIdade none 5 false tableU1).2.rows[0]?.map (fun sr => getCol sr "sexo") =
      some (getCol rowU1 "sexo") ∧
    (upsert_rows dfIdade none 5 false tableU1).2.rows[0]?.map StoredRow.created_at =
      some rowU1.created_at := by
  obtain ⟨sr', hget, hc, hf⟩ :=
    upsert_frame_preserves_untouched_columns dfIdade 5 tableU1 (by decide) 0 rowU1 (by decide)
  constructor
  · rw [hget, Option.map_some', hf "sexo" (by decide)]
  · rw [hget, Option.map_some', hc]

/-- C2 counterexample: the claim says a storage fault during an upsert rolls
back *all* effects of the call including schema changes.  On the code this is
false: `ensure_columns_exist` commits each `ALTER TABLE` in its own
connection before the write transaction starts, so after a fault in the
write transaction the new `idade` column is still visible while no row was
written. -/
theorem upsert_schema_change_survives_fault_cx :
    (upsert_rows dfIdade none 5 true baseTable).1 = .storageFailure ∧
    (upsert_rows dfIdade none 5 true baseTable).2.schema ≠ baseTable.schema ∧
    (upsert_rows dfIdade none 5 true baseTable).2.schema =
      baseSchema ++ [⟨"idade", "INTEGER", false, false, false⟩] ∧
    (upsert_rows dfIdade none 5 true baseTable).2.rows = baseTable.rows := by
  decide

/-- C2 (amended): the write transaction of an upsert call is atomic: on a
storage fault during it the call surfaces `StorageFailure` and none of the
batch's row effects remain (the stored rows are exactly as before the call);
however the schema changes made by the call's `ensure_columns_exist` phase
are committed in separate transactions and remain visible. -/
theorem upsert_write_transaction_atomic (df : DataFrame) (pk : Option (List String))
    (now : Nat) (t : Table) (h1 : dfEmpty df = false)
    (h2 : (missingPkOf df pk).isEmpty = true) :
    upsert_rows df pk now true t = (.storageFailure, ensure_columns_exist df.cols t) ∧
    (ensure_columns_exist df.cols t).rows = t.rows :=
  ⟨upsert_rows_failure df pk now true t h1 h2 rfl, ensure_columns_rows df.cols t⟩

/-- Witness for the amended C2 at a concrete batch and table. -/
theorem upsert_write_transaction_atomic_witness :
    upsert_rows dfIdade none 5 true baseTable =
      (.storageFailure, ensure_columns_exist dfIdade.cols baseTable) ∧
    (ensure_columns_exist dfIdade.cols baseTable).rows = baseTable.rows :=
  upsert_write_transaction_atomic dfIdade none 5 baseTable (by decide) (by decide)

/-- C3: (a) `created_at` of any stored row survives any sequence of upserts
unchanged; (b) every row first inserted by a committed upsert has
`created_at = updated_at = now` of that call; (c) every stored row whose key
is touched by a committed batch has `updated_at` refreshed to the call's
current time. -/
theorem created_at_set_once_updated_at_refreshed :
    (∀ (bs : List (DataFrame × Nat)) (t : Table) (i : Nat) (sr : StoredRow),
      t.rows[i]? = some sr →
      ∃ sr', (applyBatches bs t).rows[i]? = some sr' ∧
        sr'.created_at = sr.created_at) ∧
    (∀ (df : DataFrame) (now : Nat) (t : Table),
      (upsert_rows df none now false t).1 = .ok →
      ∀ (j : Nat) (sr' : StoredRow), t.rows.length ≤ j →
        (upsert_rows df none now false t).2.rows[j]? = some sr' →
        sr'.created_at = now ∧ sr'.updated_at = now) ∧
    (∀ (df : DataFrame) (now : Nat) (t : Table),
      (upsert_rows df none now false t).1 = .ok →
      ∀ (i : Nat) (sr : StoredRow), t.rows[i]? = some sr →
      ∀ r ∈ df.rows, keyOf df.cols r = rowKey sr →
      ∃ sr', (upsert_rows df none now false t).2.rows[i]? = some sr' ∧
        sr'.updated_at = now) := by
  refine ⟨?_, ?_, ?_⟩
  · intro bs
    induction bs with
    | nil => intro t i sr hsr; exact ⟨sr, hsr, rfl⟩
    | cons b bs ih =>
      intro t i sr hsr
      obtain ⟨sr₁, h1, hc1⟩ :=
        upsert_created_pointwise b.1 none b.2 false t i sr hsr
      obtain ⟨sr₂, h2, hc2⟩ := ih (upsert_rows b.1 none b.2 false t).2 i sr₁ h1
      exact ⟨sr₂, h2, hc2.trans hc1⟩
  · intro df now t h j sr' hj hget
    rw [upsert_rows_snd_of_ok df none now false t h] at hget
    exact foldl_applyRow_new_region df.cols (ctiOf df) (ucOf df none) now df.rows
      t.rows t.rows.length
      (fun j₀ sr₀ hj₀ hget₀ => by
        rw [List.getElem?_eq_none hj₀] at hget₀
        exact Option.noConfusion hget₀)
      j sr' hj hget
  · intro df now t h i sr hsr r hr hkey
    rw [upsert_rows_snd_of_ok df none now false t h]
    exact foldl_applyRow_touched df.cols (ctiOf df) (ucOf df none) now
      (origem_not_mem_uc df) (ident_not_mem_uc df) df.rows t.rows i sr hsr
      ⟨r, hr, hkey⟩

/-- Witness for C3: `created_at` of the stored row survives one upsert at
clock 5, and `updated_at` is refreshed to 7 by an upsert at clock 7 touching
its key. -/
theorem created_at_set_once_witness :
    (applyBatches [(dfIdade, 5)] tableU1).rows[0]?.map StoredRow.created_at =
      some rowU1.created_at ∧
    (upsert_rows dfIdade none 7 false tableU1).2.rows[0]?.map StoredRow.updated_at =
      some 7 := by
  obtain ⟨sr₁, h1, hc1⟩ :=
    created_at_set_once_updated_at_refreshed.1 [(dfIdade, 5)] tableU1 0 rowU1 (by decide)
  obtain ⟨sr₂, h2, hu2⟩ :=
    created_at_set_once_updated_at_refreshed.2.2 dfIdade 7 tableU1 (by decide) 0 rowU1
      (by decide) [.textV "2013", .textV "UPA001", .intV 31] (by decide) (by decide)
  constructor
  · rw [h1, Option.map_some', hc1]
  · rw [h2, Option.map_some', hu2]

/-- C4 counterexample: the claim's inference policy ("names ending in an
age/count-like vocabulary get integer, monetary/weight names get float,
every other name gets text") is wrong on the code in two ways: a non-reserved
name ending in `_at` gets a DATETIME column, not text, and the age/count and
monetary keyword tests are substring containment, not suffix matching, so
`countx` gets INTEGER although it ends in neither vocabulary. -/
theorem infer_type_not_text_cx :
    inferColumnType "foo_at" = "DATETIME" ∧
    inferColumnType "countx" = "INTEGER" ∧
    "DATETIME" ≠ "TEXT" ∧ "INTEGER" ≠ "TEXT" ∧
    (ensure_columns_exist ["foo_at"] baseTable).schema =
      baseSchema ++ [⟨"foo_at", "DATETIME", false, false, false⟩] := by
  decide

/-- C4 (amended): type inference is the deterministic function
`inferColumnType` (suffix `_at` gives DATETIME; otherwise a contained
age/count keyword gives INTEGER; otherwise a contained monetary/weight
keyword gives REAL; otherwise TEXT), applied only when a column is first
created: `ensure_columns_exist` never changes the schema entry (in
particular the type) of an existing column; `renda_per_capita` is inferred
REAL, a first upsert with it adds it to the schema exactly once, and a
second identical upsert leaves the schema unchanged. -/
theorem column_type_inference_policy :
    (∀ (names : List String) (t : Table) (c : String), c ∈ get_table_columns t →
      findCol (ensure_columns_exist names t) c = findCol t c) ∧
    inferColumnType "renda_per_capita" = "REAL" ∧
    (upsert_rows dfRenda none 5 false baseTable).2.schema =
      baseSchema ++ [⟨"renda_per_capita", "REAL", false, false, false⟩] ∧
    (upsert_rows dfRenda none 6 false (upsert_rows dfRenda none 5 false baseTable).2).2.schema =
      (upsert_rows dfRenda none 5 false baseTable).2.schema :=
  ⟨findCol_ensure_columns, by decide, by decide, by decide⟩

/-- Witness for the amended C4: growing the schema cannot change the type of
the existing `idade` column. -/
theorem column_type_inference_policy_witness :
    findCol (ensure_columns_exist ["idade", "idade_nova"] tableU1) "idade" =
      findCol tableU1 "idade" :=
  column_type_inference_policy.1 ["idade", "idade_nova"] tableU1 "idade" (by decide)

/-- C5: mapping lookups are total and consistent: an unknown semantic name
gives absent for both `physical_code` and `declared_type`; a known name with
an unmapped origin gives absent for both; a mapped entry returns exactly its
(possibly null) physical code and its declared type, so a null mapped code
makes `physical_code` absent; `exists` is true iff `physical_code` is
non-absent; and in the shipped `VAR_MAP` no entry has a null physical code
(so the null-code case never arises for `declared_type` on real data). -/
theorem mapping_lookup_total_and_consistent :
    (∀ v o : String, VAR_MAP.lookup v = none →
      get_codigo_fisico v o = none ∧ get_tipo v o = none) ∧
    (∀ (v o : String) (m : List (String × VarEntry)), VAR_MAP.lookup v = some m →
      m.lookup o = none → get_codigo_fisico v o = none ∧ get_tipo v o = none) ∧
    (∀ (v o : String) (m : List (String × VarEntry)) (e : VarEntry),
      VAR_MAP.lookup v = some m → m.lookup o = some e →
      get_codigo_fisico v o = e.codigo ∧ get_tipo v o = some e.tipo) ∧
    (∀ v o : String, variavel_existe v o = true ↔ (get_codigo_fisico v o).isSome) ∧
    VAR_MAP.all (fun p => p.2.all (fun q => q.2.codigo.isSome)) = true := by
  refine ⟨?_, ?_, ?_, ?_, by decide⟩
  · intro v o h
    unfold get_codigo_fisico get_tipo
    rw [h]
    exact ⟨rfl, rfl⟩
  · intro v o m h1 h2
    unfold get_codigo_fisico get_tipo
    rw [h1]
    dsimp only
    rw [h2]
    exact ⟨rfl, rfl⟩
  · intro v o m e h1 h2
    unfold get_codigo_fisico get_tipo
    rw [h1]
    dsimp only
    rw [h2]
    exact ⟨rfl, rfl⟩
  · intro v o
    exact Iff.rfl

/-- Witness for C5 at concrete lookups: an unknown name, a known name with an
unknown origin, a mapped entry, and `exists` on it. -/
theorem mapping_lookup_witness :
    (get_codigo_fisico "nope" "2013" = none ∧ get_tipo "nope" "2013" = none) ∧
    (get_codigo_fisico "sexo" "1999" = none ∧ get_tipo "sexo" "1999" = none) ∧
    (get_codigo_fisico "sexo" "2013" = some "c006" ∧
      get_tipo "sexo" "2013" = some "string") ∧
    variavel_existe "sexo" "2013" = true := by
  refine ⟨?_, ?_, ?_, ?_⟩
  · exact mapping_lookup_total_and_consistent.1 "nope" "2013" (by decide)
  · exact mapping_lookup_total_and_consistent.2.1 "sexo" "1999"
      [("2013", ⟨some "c006", "string"⟩), ("2019", ⟨some "c006", "string"⟩)]
      (by decide) (by decide)
  · exact mapping_lookup_total_and_consistent.2.2.1 "sexo" "2013"
      [("2013", ⟨some "c006", "string"⟩), ("2019", ⟨some "c006", "string"⟩)]
      ⟨some "c006", "string"⟩ (by decide) (by decide)
  · exact (mapping_lookup_total_and_consistent.2.2.2.1 "sexo" "2013").mpr (by decide)

/-- C6 counterexample: for an input with zero rows that also lacks both
primary-key columns, the call does not fail with `MissingKeyColumns`: the
`df.empty` early return runs first and the call returns the `EmptyBatch`
outcome. -/
theorem empty_batch_precedes_missing_pk_cx :
    "origem" ∉ dfNoPk.cols ∧
    upsert_rows dfNoPk none 0 false baseTable = (.emptyBatch, baseTable) ∧
    isMissingKey (upsert_rows dfNoPk none 0 false baseTable).1 = false := by
  decide

/-- C6 (amended): for every upsert call whose input is nonempty (both axes)
and lacks at least one of the primary-key columns, the call fails with
`MissingKeyColumns` carrying exactly the missing columns, before any I/O:
the store is returned completely unchanged (no schema change, no write). -/
theorem upsert_missing_pk_fails_fast (df : DataFrame) (pk : Option (List String))
    (now : Nat) (fault : Bool) (t : Table) (h1 : dfEmpty df = false)
    (h2 : (missingPkOf df pk).isEmpty = false) :
    upsert_rows df pk now fault t = (.missingKeyColumns (missingPkOf df pk), t) :=
  upsert_rows_missing df pk now fault t h1 h2

/-- Witness for the amended C6: a nonempty batch without the key columns. -/
theorem upsert_missing_pk_fails_fast_witness :
    upsert_rows { cols := ["x"], rows := [[SQLVal.intV 1]] } none 0 false baseTable =
      (.missingKeyColumns ["origem", "identificador_unidade"], baseTable) :=
  upsert_missing_pk_fails_fast { cols := ["x"], rows := [[SQLVal.intV 1]] } none 0 false
    baseTable (by decide) (by decide)

/-- C7: an upsert call on an input with zero rows is the `EmptyBatch` no-op:
it is detected before touching the store, performs no schema change and no
write, and returns the store exactly as it was. -/
theorem upsert_empty_batch_noop (df : DataFrame) (pk : Option (List String))
    (now : Nat) (fault : Bool) (t : Table) (h : df.rows = []) :
    upsert_rows df pk now fault t = (.emptyBatch, t) := by
  apply upsert_rows_empty
  unfold dfEmpty
  rw [h, List.isEmpty_nil, Bool.or_true]

/-- Witness for C7 on a concrete zero-row batch and a nonempty table. -/
theorem upsert_empty_batch_noop_witness :
    upsert_rows dfNoPk none 3 true tableU1 = (.emptyBatch, tableU1) :=
  upsert_empty_batch_noop dfNoPk none 3 true tableU1 rfl

/-- C8: `ensure_table_exists` and `add_column_if_not_exists` (the
`ensure_column` of the spec) are idempotent, and on an absent table
`ensure_table_exists` creates exactly the two NOT NULL key columns forming
the composite primary key plus `created_at` and `updated_at` with
default-now semantics, and no rows. -/
theorem schema_ops_idempotent :
    (∀ s : Store, ensure_table_exists (ensure_table_exists s) = ensure_table_exists s) ∧
    (∀ (c ty : String) (t : Table),
      add_column_if_not_exists c ty (add_column_if_not_exists c ty t) =
        add_column_if_not_exists c ty t) ∧
    (∀ s : Store, s.table? = none →
      ensure_table_exists s =
        { table? := some ⟨[⟨"origem", "TEXT", true, true, false⟩,
            ⟨"identificador_unidade", "TEXT", true, true, false⟩,
            ⟨"created_at", "DATETIME", false, false, true⟩,
            ⟨"updated_at", "DATETIME", false, false, true⟩], []⟩ }) := by
  refine ⟨?_, ?_, ?_⟩
  · intro s
    obtain ⟨t?⟩ := s
    cases t? <;> rfl
  · intro c ty t
    unfold add_column_if_not_exists
    by_cases h : (get_table_columns t).contains c = true
    · rw [if_pos h, if_pos h]
    · rw [if_neg h]
      have hmem : c ∈ get_table_columns
          { t with schema := t.schema ++ [⟨c, ty, false, false, false⟩] } := by
        unfold get_table_columns
        rw [List.map_append]
        apply List.mem_append_right
        simp
      have h2 : (get_table_columns
          { t with schema := t.schema ++ [⟨c, ty, false, false, false⟩] }).contains c = true := by
        simpa using hmem
      rw [if_pos h2]
  · intro s h
    unfold ensure_table_exists table_exists
    rw [h]
    rfl

/-- Witness for C8: creating the table on an absent store yields exactly the
base schema. -/
theorem schema_ops_idempotent_witness :
    ensure_table_exists { table? := none } =
      { table? := some ⟨[⟨"origem", "TEXT", true, true, false⟩,
          ⟨"identificador_unidade", "TEXT", true, true, false⟩,
          ⟨"created_at", "DATETIME", false, false, true⟩,
          ⟨"updated_at", "DATETIME", false, false, true⟩], []⟩ } :=
  schema_ops_idempotent.2.2 { table? := none } rfl

/-- C9 counterexample: the origin tag `origem` is not a semantic variable of
the registry at all, so `exists("origem", o)` is false for both known
origins, contradicting the claim that both identification fields have a
non-null mapping in every origin. -/
theorem origem_not_in_registry_cx :
    VAR_MAP.lookup "origem" = none ∧
    variavel_existe "origem" "2013" = false ∧
    variavel_existe "origem" "2019" = false := by
  decide

/-- C9 (amended): the unit identifier `identificador_unidade` has a mapping
entry with a non-null physical code (`upa_pns`) in every origin known to the
registry ("2013" and "2019"); the origin tag `origem` is not a registry
entry — it is the per-origin lookup key itself, supplied by the caller — so
`exists` is false for it in every origin. -/
theorem identification_fields_mapping :
    variavel_existe "identificador_unidade" "2013" = true ∧
    variavel_existe "identificador_unidade" "2019" = true ∧
    get_codigo_fisico "identificador_unidade" "2013" = some "upa_pns" ∧
    get_codigo_fisico "identificador_unidade" "2019" = some "upa_pns" ∧
    VAR_MAP.lookup "origem" = none ∧
    variavel_existe "origem" "2013" = false ∧
    variavel_existe "origem" "2019" = false := by
  decide

/-- C10 counterexample: the claim's "the result of the upsert is identical
whether or not the input batch contains those two columns" fails on a
nonempty batch whose only column is `created_at`: with the column the call
fails with `MissingKeyColumns` (the `ValueError` of
src/dao/sqlite_client.py 216), without it the input has zero columns, so
`df.empty` is true and the call returns the `EmptyBatch` no-op
(line 206) — the outcomes differ, though both leave the store unchanged. -/
theorem caller_timestamp_changes_outcome_cx :
    (upsert_rows dfOnlyTs none 0 false baseTable).1 =
      .missingKeyColumns ["origem", "identificador_unidade"] ∧
    (upsert_rows (dropTs dfOnlyTs) none 0 false baseTable).1 = .emptyBatch ∧
    upsert_rows dfOnlyTs none 0 false baseTable ≠
      upsert_rows (dropTs dfOnlyTs) none 0 false baseTable ∧
    (upsert_rows dfOnlyTs none 0 false baseTable).2 = baseTable ∧
    (upsert_rows (dropTs dfOnlyTs) none 0 false baseTable).2 = baseTable := by
  decide

/-- C10 (amended): the stored timestamps are assigned by the store itself,
and caller-supplied `created_at` / `updated_at` columns are ignored up to
the validation outcome: dropping them from a batch (default key columns,
positionally well-formed rows) always yields the identical resulting store
state, and — whenever the batch carries the `origem` key column — the
identical full call result (outcome included) as well.  In the remaining
degenerate case (a nonempty batch with only timestamp columns) the failure
outcome differs (`MissingKeyColumns` versus `EmptyBatch`) while the store is
unchanged either way. -/
theorem upsert_ignores_caller_timestamps (df : DataFrame) (now : Nat) (fault : Bool)
    (t : Table) (halign : ∀ r ∈ df.rows, r.length = df.cols.length) :
    (upsert_rows (dropTs df) none now fault t).2 = (upsert_rows df none now fault t).2 ∧
    ("origem" ∈ df.cols →
      upsert_rows (dropTs df) none now fault t = upsert_rows df none now fault t) :=
  ⟨upsert_dropTs_state df now fault t halign,
   fun h => upsert_dropTs_full df now fault t halign h⟩

/-- Witness for C10: a batch carrying a bogus caller `created_at` column
behaves exactly like the same batch without it. -/
theorem upsert_ignores_caller_timestamps_witness :
    (upsert_rows (dropTs dfWithTs) none 5 false baseTable).2 =
      (upsert_rows dfWithTs none 5 false baseTable).2 ∧
    upsert_rows (dropTs dfWithTs) none 5 false baseTable =
      upsert_rows dfWithTs none 5 false baseTable := by
  have h := upsert_ignores_caller_timestamps dfWithTs 5 false baseTable (by decide)
  exact ⟨h.1, h.2 (by decide)⟩
